import Mathlib

/-!
Shallow embedding of the todo-hackathone-phase2 backend (FastAPI task
service) and proofs of the frozen claims about it.

The embedding mirrors:
  * `src/backend/src/models/task.py` / `user.py`   — the persisted entities;
  * `src/backend/src/models/schemas.py`            — Pydantic validation of
    task request bodies (`TaskCreate`, `TaskUpdate`, `TaskResponse`);
  * `src/backend/src/services/task_service.py`     — `TaskService` CRUD
    operations with per-owner query scoping;
  * `src/backend/src/services/user_service.py`     — token issuance
    (`create_access_token`) and `login_user`;
  * `src/backend/src/services/auth.py`             — `verify_token`.

The database session is modelled as an explicit `List Task` / `List User`
(rows in insertion order); a SQLAlchemy `select(...).where(...)` followed by
`scalar_one_or_none()` becomes `List.find?`, `.all()` becomes `List.filter`,
and `order_by(created_at.desc())` becomes a stable `mergeSort` on the
descending `created_at` order, matching SQL's stable sort semantics.
A committed attribute mutation on an ORM row becomes replacement of the row
(keyed by its primary key) in the list.  The external `python-jose` JWT
library is modelled by a token structure that records the claims and the
secret used at signing time: the HMAC-SHA256 signature verifies exactly when
the verifying secret equals the signing secret, and `jwt.decode` rejects a
token whose `exp` claim is strictly before the supplied wall-clock time
(jose's `ExpiredSignatureError`, a `JWTError` subclass).  Python `str()` on a
nonnegative integer and `int()` on a string are modelled by decimal
rendering/parsing over `Char` lists.  `bcrypt` password verification is an
opaque external collaborator, passed as a function parameter.
-/

namespace TodoApp

/-- `fastapi.HTTPException`: an HTTP status code plus a detail message. -/
structure HTTPException where
  status_code : Nat
  detail : String
deriving DecidableEq, Repr

/-- `src/backend/src/models/task.py` `Task` row: timestamps are modelled as
naturals (seconds); `id` is the primary key. -/
structure Task where
  id : Nat
  user_id : Nat
  title : String
  description : Option String
  is_complete : Bool
  created_at : Nat
  updated_at : Nat
deriving DecidableEq, Repr

/-- `src/backend/src/models/user.py` `User` row. -/
structure User where
  id : Nat
  email : String
  password_hash : String
  full_name : Option String
  is_active : Bool
  created_at : Nat
  updated_at : Nat
deriving DecidableEq, Repr

/-- The `tasks` table's primary-key invariant: two rows with the same `id`
are the same row. -/
def TaskPkey (db : List Task) : Prop :=
  ∀ a ∈ db, ∀ b ∈ db, a.id = b.id → a = b

instance (db : List Task) : Decidable (TaskPkey db) := by
  unfold TaskPkey; infer_instance

/-! ### Python decimal string conversion (`str` / `int`) -/

/-- The ASCII character of a decimal digit. -/
def digitToChar (d : Nat) : Char := Char.ofNat (48 + d)

/-- Python `str(n)` for a nonnegative integer: decimal digits, most
significant first, `"0"` for zero. -/
def pyStr (n : Nat) : String :=
  if n = 0 then "0" else String.mk ((Nat.digits 10 n).reverse.map digitToChar)

/-- Parse one ASCII decimal digit, failing on any other character. -/
def charToDigit (c : Char) : Option Nat :=
  if 48 ≤ c.toNat ∧ c.toNat ≤ 57 then some (c.toNat - 48) else none

/-- One step of Python `int()` decimal parsing: extend the accumulator by a
digit, propagating failure. -/
def pyIntStep (acc : Option Nat) (c : Char) : Option Nat :=
  match acc, charToDigit c with
  | some a, some d => some (a * 10 + d)
  | _, _ => none

/-- Python `int(s)` for a plain decimal-digit string: `none` models the
`ValueError` raised on a non-numeric string. -/
def pyInt (s : String) : Option Nat :=
  if s.data.isEmpty then none else s.data.foldl pyIntStep (some 0)

/-! ### JWT model (external `python-jose` collaborator) -/

/-- The claims dictionary put into a token by `create_access_token`:
`sub` (a string, possibly absent in a foreign token), `exp` and `iat`
as epoch seconds. -/
structure Claims where
  sub : Option String
  exp : Nat
  iat : Nat
deriving DecidableEq, Repr

/-- A signed JWT: `jwt.encode(claims, secret, HS256)` yields a token whose
HMAC-SHA256 signature verifies exactly against the signing secret, so the
token is modelled as the claims plus the secret used to sign. -/
structure EncodedJWT where
  claims : Claims
  signedWith : String
deriving DecidableEq, Repr

/-- Failures of `jose.jwt.decode`; `expired` is `ExpiredSignatureError`,
a subclass of `JWTError`, so both reach the `except JWTError` handler. -/
inductive JoseError where
  | badSignature
  | expired
deriving DecidableEq, Repr

/-- `jose.jwt.decode(token, secret, algorithms=[HS256])` at wall-clock time
`now`: rejects a signature made with a different secret, rejects an `exp`
strictly in the past, otherwise returns the claims. -/
def joseDecode (secret : String) (now : Nat) (token : EncodedJWT) :
    Except JoseError Claims :=
  if token.signedWith ≠ secret then .error .badSignature
  else if token.claims.exp < now then .error .expired
  else .ok token.claims

/-- `BETTER_AUTH_SECRET`: both `services/auth.py` and
`services/user_service.py` read the same environment variable with the same
default, so the process-wide secret is one constant. -/
def BETTER_AUTH_SECRET : String := "default-secret-change-this"

/-- `ACCESS_TOKEN_EXPIRE_HOURS = 24` (`services/user_service.py`). -/
def ACCESS_TOKEN_EXPIRE_HOURS : Nat := 24

/-- `UserService.create_access_token` (`services/user_service.py` 61–79):
encodes `sub = str(user_id)`, `exp = now + 24h`, `iat = now`, signed with the
process-wide secret. `now` is `datetime.utcnow()` in epoch seconds. -/
def create_access_token (now : Nat) (user_id : Nat) : EncodedJWT :=
  { claims :=
      { sub := some (pyStr user_id)
        exp := now + ACCESS_TOKEN_EXPIRE_HOURS * 3600
        iat := now }
    signedWith := BETTER_AUTH_SECRET }

/-- `verify_token` (`services/auth.py` 19–77) at wall-clock time `now`:
decode with the process-wide secret; any `JWTError` (bad signature or
expiry) → 401; extract the `sub` claim; a missing `sub` raises an
`HTTPException` inside the `try` that the blanket `except Exception`
re-wraps, still as 401; a non-integer `sub` (`ValueError` from `int`) → 401;
otherwise return `int(sub)`. -/
def verify_token (now : Nat) (token : EncodedJWT) : Except HTTPException Nat :=
  match joseDecode BETTER_AUTH_SECRET now token with
  | .error _ => .error ⟨401, "Invalid or expired token"⟩
  | .ok payload =>
    match payload.sub with
    | none => .error ⟨401, "Token verification failed: 401: Invalid token: missing user ID"⟩
    | some s =>
      match pyInt s with
      | none => .error ⟨401, "Invalid token: user ID must be an integer"⟩
      | some user_id => .ok user_id

/-- Python `s.strip()`: drop leading and trailing whitespace characters. -/
def pyStrip (s : String) : String :=
  String.mk
    (((s.data.dropWhile Char.isWhitespace).reverse.dropWhile
        Char.isWhitespace).reverse)

/-! ### Request/response schemas (`src/backend/src/models/schemas.py`) -/

/-- A validated `TaskCreate` body: only `title` and `description` exist in
the accepted input schema — it carries no owner field. -/
structure TaskCreate where
  title : String
  description : Option String
deriving DecidableEq, Repr

/-- A validated `TaskUpdate` body: optional `title` and `description`. -/
structure TaskUpdate where
  title : Option String
  description : Option String
deriving DecidableEq, Repr

/-- `TaskResponse` (`schemas.py` 81–106). -/
structure TaskResponse where
  id : Nat
  title : String
  description : Option String
  is_complete : Bool
  created_at : Nat
  updated_at : Nat
  user_id : Nat
deriving DecidableEq, Repr

/-- `TaskResponse.model_validate(task)`: field-for-field copy from the ORM
row (`from_attributes = True`). -/
def TaskResponse.model_validate (t : Task) : TaskResponse :=
  { id := t.id, title := t.title, description := t.description
    is_complete := t.is_complete, created_at := t.created_at
    updated_at := t.updated_at, user_id := t.user_id }

/-- `TaskListResponse` (`schemas.py` 109–135). -/
structure TaskListResponse where
  tasks : List TaskResponse
  total_count : Nat
  filtered_count : Nat
deriving DecidableEq, Repr

/-- `TaskCreate.title` validation: the `Field(min_length=1, max_length=200)`
constraints run on the raw value, then the `title_not_whitespace` validator
rejects whitespace-only titles and returns the stripped title. -/
def TaskCreate.validate_title (v : String) : Except String String :=
  if v.length < 1 then .error "String should have at least 1 character"
  else if 200 < v.length then .error "String should have at most 200 characters"
  else if pyStrip v = "" then .error "Title cannot be only whitespace"
  else .ok (pyStrip v)

/-- `TaskCreate.description` validation: `Field(max_length=1000)` on the raw
value, then `clean_description` strips whitespace and normalizes a falsy or
whitespace-only value to `None`. -/
def TaskCreate.clean_description (v : Option String) : Except String (Option String) :=
  match v with
  | none => .ok none
  | some v =>
    if 1000 < v.length then .error "String should have at most 1000 characters"
    else .ok (if pyStrip v = "" then none else some (pyStrip v))

/-- `TaskUpdate.title` validation (`schemas.py` 48, 51–59): identical bounds
and stripping to `TaskCreate`, applied only when the field is supplied. -/
def TaskUpdate.validate_title (v : Option String) : Except String (Option String) :=
  match v with
  | none => .ok none
  | some v =>
    if v.length < 1 then .error "String should have at least 1 character"
    else if 200 < v.length then .error "String should have at most 200 characters"
    else if pyStrip v = "" then .error "Title cannot be only whitespace"
    else .ok (some (pyStrip v))

/-- `TaskUpdate.clean_description` (`schemas.py` 61–68): same body as
`TaskCreate.clean_description`. -/
def TaskUpdate.clean_description (v : Option String) : Except String (Option String) :=
  match v with
  | none => .ok none
  | some v =>
    if 1000 < v.length then .error "String should have at most 1000 characters"
    else .ok (if pyStrip v = "" then none else some (pyStrip v))

/-- Pydantic validation of a raw `TaskUpdate` request body. -/
def TaskUpdate.validate (title description : Option String) :
    Except String TaskUpdate :=
  match TaskUpdate.validate_title title, TaskUpdate.clean_description description with
  | .ok t, .ok d => .ok ⟨t, d⟩
  | .error e, _ => .error e
  | _, .error e => .error e

/-! ### `TaskService` (`src/backend/src/services/task_service.py`) -/

/-- The ownership-scoped lookup used verbatim by `get_task_by_id`,
`update_task`, `delete_task` and `toggle_completion`:
`select(Task).where(Task.id == task_id, Task.user_id == user_id)` followed by
`scalar_one_or_none()`. -/
def selectOwnedTask (db : List Task) (user_id task_id : Nat) : Option Task :=
  db.find? (fun t => t.id == task_id && t.user_id == user_id)

/-- `TaskService.create_task` (28–62): builds a `Task` with
`user_id = user_id` (the authenticated identity), `is_complete = False`,
commits it (the store assigns `next_id` and `now` timestamps) and returns
the refreshed row as a response. -/
def create_task (db : List Task) (now next_id user_id : Nat)
    (task_data : TaskCreate) : List Task × TaskResponse :=
  let task : Task :=
    { id := next_id, user_id := user_id, title := task_data.title
      description := task_data.description, is_complete := false
      created_at := now, updated_at := now }
  (db ++ [task], TaskResponse.model_validate task)

/-- `TaskService.get_user_tasks` (64–116): filter the caller's rows, apply
the optional status filter (any other value adds no clause), order by
`created_at` descending, and report both the filtered and the unfiltered
count of the caller's rows. -/
def get_user_tasks (db : List Task) (user_id : Nat)
    (status_filter : Option String) : TaskListResponse :=
  let query := db.filter (fun t => t.user_id == user_id)
  let query :=
    if status_filter = some "complete" then
      query.filter (fun t => t.is_complete == true)
    else if status_filter = some "incomplete" then
      query.filter (fun t => t.is_complete == false)
    else query
  let tasks := query.mergeSort (fun a b => decide (b.created_at ≤ a.created_at))
  let total_count := (db.filter (fun t => t.user_id == user_id)).length
  let task_responses := tasks.map TaskResponse.model_validate
  { tasks := task_responses
    total_count := total_count
    filtered_count := task_responses.length }

/-- `TaskService.get_task_by_id` (118–154): ownership-scoped lookup; no
matching row — nonexistent id or another owner's row alike — raises 404. -/
def get_task_by_id (db : List Task) (user_id task_id : Nat) :
    Except HTTPException TaskResponse :=
  match selectOwnedTask db user_id task_id with
  | none => .error ⟨404, "Task not found or access denied"⟩
  | some task => .ok (TaskResponse.model_validate task)

/-- `TaskService.update_task` (156–203): ownership-scoped lookup, then
assign only the supplied fields and commit; returns the new store and the
refreshed row. (`updated_at` is untouched: the code defers it to a DB
trigger that the migration never creates.) -/
def update_task (db : List Task) (user_id task_id : Nat)
    (task_data : TaskUpdate) : Except HTTPException (List Task × TaskResponse) :=
  match selectOwnedTask db user_id task_id with
  | none => .error ⟨404, "Task not found or access denied"⟩
  | some task =>
    let task :=
      match task_data.title with
      | some t => { task with title := t }
      | none => task
    let task :=
      match task_data.description with
      | some d => { task with description := some d }
      | none => task
    .ok (db.map (fun u => if u.id == task.id then task else u),
         TaskResponse.model_validate task)

/-- `TaskService.delete_task` (205–239): ownership-scoped lookup, then
delete the row. -/
def delete_task (db : List Task) (user_id task_id : Nat) :
    Except HTTPException (List Task) :=
  match selectOwnedTask db user_id task_id with
  | none => .error ⟨404, "Task not found or access denied"⟩
  | some task => .ok (db.filter (fun u => u.id != task.id))

/-- `TaskService.toggle_completion` (241–284): ownership-scoped lookup, then
`task.is_complete = not task.is_complete` and commit. -/
def toggle_completion (db : List Task) (user_id task_id : Nat) :
    Except HTTPException (List Task × TaskResponse) :=
  match selectOwnedTask db user_id task_id with
  | none => .error ⟨404, "Task not found or access denied"⟩
  | some task =>
    let task := { task with is_complete := !task.is_complete }
    .ok (db.map (fun u => if u.id == task.id then task else u),
         TaskResponse.model_validate task)

/-! ### `UserService.login_user` (`src/backend/src/services/user_service.py`) -/

/-- `UserResponse` (`auth_schemas.py` 44–63). -/
structure UserResponse where
  id : Nat
  email : String
  full_name : Option String
  is_active : Bool
  created_at : Nat
deriving DecidableEq, Repr

/-- `UserResponse.model_validate(user)`. -/
def UserResponse.model_validate (u : User) : UserResponse :=
  { id := u.id, email := u.email, full_name := u.full_name
    is_active := u.is_active, created_at := u.created_at }

/-- `TokenResponse` (`auth_schemas.py` 66–86). -/
structure TokenResponse where
  access_token : EncodedJWT
  token_type : String
  user : UserResponse
deriving DecidableEq, Repr

/-- `UserService.login_user` (147–210).  `verify_password` delegates to the
external bcrypt collaborator, passed in as a function.  The email lookup is
`select(User).where(User.email == email)` + `scalar_one_or_none()`.  A
missing user or failed password check yields 401 before the active-account
check, which yields 403. -/
def login_user (users : List User) (verify_password : String → String → Bool)
    (now : Nat) (email password : String) : Except HTTPException TokenResponse :=
  match users.find? (fun u => u.email == email) with
  | none => .error ⟨401, "Incorrect email or password"⟩
  | some user =>
    if verify_password password user.password_hash = false then
      .error ⟨401, "Incorrect email or password"⟩
    else if user.is_active = false then
      .error ⟨403, "Account is inactive"⟩
    else
      .ok { access_token := create_access_token now user.id
            token_type := "bearer"
            user := UserResponse.model_validate user }

end TodoApp

namespace TodoApp

/-! ### Helper lemmas -/

/-- The ownership-scoped lookup misses every row of another owner: under the
primary-key invariant, a row with the requested id exists but belongs to a
different user, so the single-predicate query returns no row. -/
theorem selectOwnedTask_cross_owner_none (db : List Task) (t : Task) (B : Nat)
    (hpk : TaskPkey db) (ht : t ∈ db) (hB : t.user_id ≠ B) :
    selectOwnedTask db B t.id = none := by
  unfold selectOwnedTask
  rw [List.find?_eq_none]
  intro u hu
  simp only [Bool.and_eq_true, beq_iff_eq, not_and]
  intro hid
  have hut : u = t := hpk u hu t ht hid
  rw [hut]
  exact hB

/-- The ownership-scoped lookup misses an id that no row has. -/
theorem selectOwnedTask_no_id_none (db : List Task) (tid B : Nat)
    (h : ∀ u ∈ db, u.id ≠ tid) :
    selectOwnedTask db B tid = none := by
  unfold selectOwnedTask
  rw [List.find?_eq_none]
  intro u hu
  simp only [Bool.and_eq_true, beq_iff_eq, not_and]
  intro hid
  exact absurd hid (h u hu)

/-- Replacing the found row by a row with the same id and owner makes the
ownership-scoped lookup return the replacement (needs the primary-key
invariant so no other row shadows the id). -/
theorem selectOwnedTask_map_update (db : List Task) (user_id task_id : Nat)
    (t newt : Task) (hpk : TaskPkey db)
    (h : selectOwnedTask db user_id task_id = some t)
    (hid : newt.id = t.id) (huid : newt.user_id = t.user_id) :
    selectOwnedTask (db.map (fun u => if u.id == t.id then newt else u))
      user_id task_id = some newt := by
  have hp : t.id = task_id ∧ t.user_id = user_id := by
    have hfs := List.find?_some h
    simpa only [Bool.and_eq_true, beq_iff_eq] using hfs
  induction db with
  | nil => simp [selectOwnedTask] at h
  | cons a rest ih =>
    by_cases hpa : (a.id == task_id && a.user_id == user_id) = true
    · have ha : a = t := by
        unfold selectOwnedTask at h
        rw [List.find?_cons_of_pos
          (p := fun x : Task => x.id == task_id && x.user_id == user_id) rest hpa] at h
        injection h
      subst ha
      unfold selectOwnedTask
      rw [List.map_cons]
      have hif : (if (a.id == a.id) = true then newt else a) = newt :=
        if_pos (beq_self_eq_true a.id)
      rw [hif]
      exact List.find?_cons_of_pos _ (by
        simp only [Bool.and_eq_true, beq_iff_eq]
        exact ⟨hid.trans hp.1, huid.trans hp.2⟩)
    · have h' : List.find?
          (fun x : Task => x.id == task_id && x.user_id == user_id) rest = some t := by
        unfold selectOwnedTask at h
        rwa [List.find?_cons_of_neg
          (p := fun x : Task => x.id == task_id && x.user_id == user_id) rest hpa] at h
      have hmemr : t ∈ rest := List.mem_of_find?_eq_some h'
      have haid : a.id ≠ t.id := by
        intro heq
        have hat : a = t :=
          hpk a (List.mem_cons_self a rest) t (List.mem_cons_of_mem a hmemr) heq
        rw [hat] at hpa
        exact hpa (by simp only [Bool.and_eq_true, beq_iff_eq]; exact hp)
      have hpk' : TaskPkey rest := fun x hx y hy =>
        hpk x (List.mem_cons_of_mem a hx) y (List.mem_cons_of_mem a hy)
      unfold selectOwnedTask
      rw [List.map_cons]
      have hif : (if (a.id == t.id) = true then newt else a) = a :=
        if_neg (by simp only [beq_iff_eq]; exact haid)
      rw [hif]
      rw [List.find?_cons_of_neg
        (p := fun x : Task => x.id == task_id && x.user_id == user_id) _ hpa]
      exact ih hpk' h'

/-- Parsing an ASCII digit rendered from a digit value below ten recovers
the value. -/
theorem charToDigit_digitToChar (d : Nat) (hd : d < 10) :
    charToDigit (digitToChar d) = some d := by
  interval_cases d <;> rfl

/-- Folding the decimal-parse step over the rendered digits of a
little-endian digit list accumulates the value of the list. -/
theorem foldr_pyIntStep (l : List Nat) (hl : ∀ d ∈ l, d < 10) (a : Nat) :
    (l.map digitToChar).foldr (fun c acc => pyIntStep acc c) (some a) =
      some (Nat.ofDigits 10 l + a * 10 ^ l.length) := by
  induction l generalizing a with
  | nil => simp [Nat.ofDigits]
  | cons d l ih =>
    have hd : d < 10 := hl d (List.mem_cons_self d l)
    have hl' : ∀ x ∈ l, x < 10 := fun x hx => hl x (List.mem_cons_of_mem d hx)
    rw [List.map_cons, List.foldr_cons, ih hl']
    show pyIntStep (some (Nat.ofDigits 10 l + a * 10 ^ l.length)) (digitToChar d) = _
    unfold pyIntStep
    rw [charToDigit_digitToChar d hd]
    simp only [Nat.ofDigits_cons, List.length_cons]
    congr 1
    ring

/-- Python `int(str(n)) == n`: decimal parsing undoes decimal rendering. -/
theorem pyInt_pyStr (n : Nat) : pyInt (pyStr n) = some n := by
  by_cases hn : n = 0
  · subst hn; rfl
  · have hne : Nat.digits 10 n ≠ [] := Nat.digits_ne_nil_iff_ne_zero.mpr hn
    have hlt : ∀ d ∈ Nat.digits 10 n, d < 10 :=
      fun d hd => Nat.digits_lt_base (by omega) hd
    unfold pyStr pyInt
    rw [if_neg hn]
    have hdata : (String.mk ((Nat.digits 10 n).reverse.map digitToChar)).data =
        (Nat.digits 10 n).reverse.map digitToChar := rfl
    rw [hdata]
    have hempty : ((Nat.digits 10 n).reverse.map digitToChar).isEmpty = false := by
      rw [List.isEmpty_eq_false]
      simp only [ne_eq, List.map_eq_nil_iff, List.reverse_eq_nil_iff]
      exact hne
    rw [hempty]
    simp only [Bool.false_eq_true, if_false]
    rw [List.map_reverse, List.foldl_reverse]
    rw [foldr_pyIntStep (Nat.digits 10 n) hlt 0]
    simp [Nat.ofDigits_digits]

/-! ### Sample rows used by the witnesses -/

/-- A concrete task owned by user 1. -/
def taskA : Task :=
  { id := 1, user_id := 1, title := "buy milk", description := some "2 liters"
    is_complete := false, created_at := 100, updated_at := 100 }

/-- A one-row task store. -/
def dbSample : List Task := [taskA]

/-- A concrete inactive user account. -/
def userInactive : User :=
  { id := 1, email := "a@x.com", password_hash := "hashpw", full_name := none
    is_active := false, created_at := 0, updated_at := 0 }

/-- A token with a valid signature whose expiry is already past. -/
def tokenExpired : EncodedJWT :=
  { claims := { sub := some "1", exp := 0, iat := 0 }
    signedWith := BETTER_AUTH_SECRET }

end TodoApp

namespace TodoApp

/-! ### The claims -/

/-- C1: for a task `t` owned by `A` and any authenticated user `B ≠ A`,
`get_task_by_id`, `update_task`, `delete_task` and `toggle_completion`
invoked as `B` on `t.id` all fail with the one 404 `NotFound` error — never
403, never success — and the very same error is produced when the id does
not exist at all. -/
theorem cross_owner_not_found_uniform (db : List Task) (t : Task) (A B : Nat)
    (hpk : TaskPkey db) (ht : t ∈ db) (hA : t.user_id = A) (hBA : B ≠ A) :
    get_task_by_id db B t.id = .error ⟨404, "Task not found or access denied"⟩ ∧
    (∀ td : TaskUpdate, update_task db B t.id td =
      .error ⟨404, "Task not found or access denied"⟩) ∧
    delete_task db B t.id = .error ⟨404, "Task not found or access denied"⟩ ∧
    toggle_completion db B t.id = .error ⟨404, "Task not found or access denied"⟩ ∧
    (∀ tid, (∀ u ∈ db, u.id ≠ tid) →
      get_task_by_id db B tid = get_task_by_id db B t.id) := by
  have hB : t.user_id ≠ B := by rw [hA]; exact fun hh => hBA hh.symm
  have hsel := selectOwnedTask_cross_owner_none db t B hpk ht hB
  refine ⟨?_, ?_, ?_, ?_, ?_⟩
  · unfold get_task_by_id; rw [hsel]
  · intro td; unfold update_task; rw [hsel]
  · unfold delete_task; rw [hsel]
  · unfold toggle_completion; rw [hsel]
  · intro tid hno
    have hsel2 := selectOwnedTask_no_id_none db tid B hno
    unfold get_task_by_id; rw [hsel, hsel2]

/-- Witness for C1 at a concrete store: user 2 reading user 1's task 1
gets the 404 error. -/
theorem cross_owner_not_found_uniform_witness :
    get_task_by_id dbSample 2 taskA.id =
      .error ⟨404, "Task not found or access denied"⟩ :=
  (cross_owner_not_found_uniform dbSample taskA 1 2
    (by decide) (by decide) rfl (by decide)).1

/-- C2: `create_task` stores and returns a task whose `user_id` is the
authenticated identity, for every request body — the accepted schema carries
no owner field, so no body can choose a different owner. -/
theorem create_task_sets_owner_from_identity (db : List Task)
    (now next_id user_id : Nat) (task_data : TaskCreate) :
    (create_task db now next_id user_id task_data).2.user_id = user_id ∧
    ∃ task : Task,
      (create_task db now next_id user_id task_data).1 = db ++ [task] ∧
      task.user_id = user_id := by
  exact ⟨rfl, _, rfl, rfl⟩

/-- C3: verifying a freshly issued token returns the identifier it was
issued for: `verify_token (create_access_token x) = x`, the subject being
rendered by `str` and parsed back by `int`, both ends sharing the
process-wide secret and HS256. -/
theorem verify_token_roundtrip (user_id now : Nat) :
    verify_token now (create_access_token now user_id) = .ok user_id := by
  unfold verify_token create_access_token joseDecode
  simp only [ne_eq, not_true_eq_false, if_false]
  have hexp : ¬ (now + ACCESS_TOKEN_EXPIRE_HOURS * 3600 < now) := by
    unfold ACCESS_TOKEN_EXPIRE_HOURS; omega
  rw [if_neg hexp]
  simp only [pyInt_pyStr]

/-- C4: a token whose expiry lies strictly before the verification-time
clock is rejected with 401 — whatever its signature — and never yields a
subject identifier. -/
theorem verify_token_expired_is_unauthorized (token : EncodedJWT) (now : Nat)
    (h : token.claims.exp < now) :
    (∀ uid, verify_token now token ≠ .ok uid) ∧
    ∃ e, verify_token now token = .error e ∧ e.status_code = 401 := by
  have herr : verify_token now token = .error ⟨401, "Invalid or expired token"⟩ := by
    unfold verify_token joseDecode
    by_cases hs : token.signedWith = BETTER_AUTH_SECRET
    · rw [if_neg (by simp [hs]), if_pos h]
    · rw [if_pos (by simpa using hs)]
  refine ⟨fun uid hok => ?_, ⟨401, "Invalid or expired token"⟩, herr, rfl⟩
  rw [herr] at hok
  exact Except.noConfusion hok

/-- Witness for C4 at a concrete expired, correctly signed token. -/
theorem verify_token_expired_is_unauthorized_witness :
    ∃ e, verify_token 10 tokenExpired = .error e ∧ e.status_code = 401 :=
  (verify_token_expired_is_unauthorized tokenExpired 10 (by decide)).2

/-- C5: the list filtered by `complete` is a subset of the unfiltered list
for the same user, and every list response has
`filtered_count ≤ total_count`, `total_count` counting all of the caller's
rows whatever the filter. -/
theorem get_user_tasks_complete_subset_counts (db : List Task) (user_id : Nat) :
    (∀ r ∈ (get_user_tasks db user_id (some "complete")).tasks,
       r ∈ (get_user_tasks db user_id none).tasks) ∧
    (∀ f : Option String,
       (get_user_tasks db user_id f).filtered_count ≤
         (get_user_tasks db user_id f).total_count) ∧
    (∀ f : Option String,
       (get_user_tasks db user_id f).total_count =
         (db.filter (fun t => t.user_id == user_id)).length) := by
  refine ⟨?_, ?_, fun f => rfl⟩
  · intro r hr
    unfold get_user_tasks at hr ⊢
    simp only [List.mem_map] at hr ⊢
    obtain ⟨t, ht, rfl⟩ := hr
    refine ⟨t, ?_, rfl⟩
    rw [(List.mergeSort_perm _ _).mem_iff] at ht ⊢
    simp only [reduceIte] at ht ⊢
    exact (List.mem_filter.mp ht).1
  · intro f
    unfold get_user_tasks
    simp only [List.length_map]
    rw [(List.mergeSort_perm _ _).length_eq]
    split_ifs with h1 h2
    · exact List.length_filter_le _ _
    · exact List.length_filter_le _ _
    · exact le_refl _

/-- C6: `update_task` on an existing row changes only the supplied fields —
owner, completion flag and both timestamps are untouched, an unsupplied
title or description keeps its old value, every other row is untouched —
and the title/description validators of `TaskUpdate` agree with those of
`TaskCreate` on every supplied value. -/
theorem update_task_frame_and_shared_validation (db : List Task)
    (user_id task_id : Nat) (td : TaskUpdate) (t : Task)
    (h : selectOwnedTask db user_id task_id = some t) :
    (∃ db' resp, update_task db user_id task_id td = .ok (db', resp) ∧
      resp.user_id = t.user_id ∧
      resp.is_complete = t.is_complete ∧
      resp.created_at = t.created_at ∧
      resp.updated_at = t.updated_at ∧
      resp.title = td.title.getD t.title ∧
      resp.description = (match td.description with
        | some d => some d
        | none => t.description) ∧
      (∀ u ∈ db, u.id ≠ t.id → u ∈ db')) ∧
    (∀ v : String, TaskUpdate.validate_title (some v) =
        (TaskCreate.validate_title v).map some) ∧
    (∀ v : Option String,
        TaskUpdate.clean_description v = TaskCreate.clean_description v) := by
  refine ⟨?_, ?_, ?_⟩
  · have hmem : ∀ (newt : Task), newt.id = t.id →
        ∀ u ∈ db, u.id ≠ t.id →
          u ∈ db.map (fun x => if x.id == newt.id then newt else x) := by
      intro newt hnid u hu hne
      refine List.mem_map.mpr ⟨u, hu, if_neg ?_⟩
      simp only [beq_iff_eq, hnid]
      exact hne
    unfold update_task
    rw [h]
    rcases td with ⟨tt, dd⟩
    cases tt with
    | none =>
      cases dd with
      | none => exact ⟨_, _, rfl, rfl, rfl, rfl, rfl, rfl, rfl, hmem t rfl⟩
      | some d => exact ⟨_, _, rfl, rfl, rfl, rfl, rfl, rfl, rfl, hmem _ rfl⟩
    | some s =>
      cases dd with
      | none => exact ⟨_, _, rfl, rfl, rfl, rfl, rfl, rfl, rfl, hmem _ rfl⟩
      | some d => exact ⟨_, _, rfl, rfl, rfl, rfl, rfl, rfl, rfl, hmem _ rfl⟩
  · intro v
    simp only [TaskUpdate.validate_title, TaskCreate.validate_title]
    split_ifs <;> rfl
  · intro v
    cases v <;> rfl

/-- Witness for C6: updating only the title of a concrete task succeeds
and keeps the owner. -/
theorem update_task_frame_and_shared_validation_witness :
    ∃ db' resp,
      update_task dbSample 1 1 ⟨some "new title", none⟩ = .ok (db', resp) ∧
      resp.user_id = taskA.user_id := by
  obtain ⟨⟨db', resp, heq, huid, _⟩, _⟩ :=
    update_task_frame_and_shared_validation dbSample 1 1
      ⟨some "new title", none⟩ taskA rfl
  exact ⟨db', resp, heq, huid⟩

/-- C7: toggling a caller-owned task flips the completion flag to its
negation, and toggling again restores the original value. -/
theorem toggle_completion_twice_restores_flag (db : List Task)
    (user_id task_id : Nat) (t : Task)
    (hpk : TaskPkey db) (h : selectOwnedTask db user_id task_id = some t) :
    ∃ db1 r1, toggle_completion db user_id task_id = .ok (db1, r1) ∧
      r1.is_complete = (!t.is_complete) ∧
      ∃ db2 r2, toggle_completion db1 user_id task_id = .ok (db2, r2) ∧
        r2.is_complete = t.is_complete := by
  have h1 : selectOwnedTask
      (db.map (fun u => if u.id == t.id then
        { t with is_complete := !t.is_complete } else u)) user_id task_id =
      some { t with is_complete := !t.is_complete } :=
    selectOwnedTask_map_update db user_id task_id t _ hpk h rfl rfl
  have e1 : toggle_completion db user_id task_id = .ok
      (db.map (fun u => if u.id == t.id then
        { t with is_complete := !t.is_complete } else u),
       TaskResponse.model_validate { t with is_complete := !t.is_complete }) := by
    unfold toggle_completion
    rw [h]
  have e2 : toggle_completion
      (db.map (fun u => if u.id == t.id then
        { t with is_complete := !t.is_complete } else u)) user_id task_id = .ok
      ((db.map (fun u => if u.id == t.id then
          { t with is_complete := !t.is_complete } else u)).map
        (fun u => if u.id == t.id then
          { t with is_complete := !(!t.is_complete) } else u),
       TaskResponse.model_validate { t with is_complete := !(!t.is_complete) }) := by
    unfold toggle_completion
    rw [h1]
  exact ⟨_, _, e1, rfl, _, _, e2, by
    simp only [TaskResponse.model_validate, Bool.not_not]⟩

/-- Witness for C7: one toggle of a concrete incomplete task reports it
complete. -/
theorem toggle_completion_twice_restores_flag_witness :
    ∃ db1 r1, toggle_completion dbSample 1 1 = .ok (db1, r1) ∧
      r1.is_complete = (!taskA.is_complete) := by
  obtain ⟨db1, r1, e1, hflag, _⟩ :=
    toggle_completion_twice_restores_flag dbSample 1 1 taskA (by decide) rfl
  exact ⟨db1, r1, e1, hflag⟩

/-- C8: a status filter that is neither `complete` nor `incomplete` yields
exactly the unfiltered response — same tasks, same counts — and is never an
error. -/
theorem get_user_tasks_unknown_filter_is_unfiltered (db : List Task)
    (user_id : Nat) (f : Option String)
    (h1 : f ≠ some "complete") (h2 : f ≠ some "incomplete") :
    get_user_tasks db user_id f = get_user_tasks db user_id none := by
  unfold get_user_tasks
  simp [h1, h2]

/-- Witness for C8: the filter string "done" behaves as no filter on a
concrete store. -/
theorem get_user_tasks_unknown_filter_is_unfiltered_witness :
    get_user_tasks dbSample 1 (some "done") = get_user_tasks dbSample 1 none :=
  get_user_tasks_unknown_filter_is_unfiltered dbSample 1 (some "done")
    (by decide) (by decide)

/-- C9: a whitespace-only (or empty) supplied description is normalized to
absent by the `TaskUpdate` validator, and an absent description is treated
as not supplied by `update_task`, so such an update leaves the stored
description unchanged. -/
theorem update_blank_description_unchanged (s : String) (db : List Task)
    (user_id task_id : Nat) (td : TaskUpdate) (t : Task)
    (hs : pyStrip s = "") (hlen : s.length ≤ 1000)
    (h : selectOwnedTask db user_id task_id = some t)
    (htd : td.description = none) :
    TaskUpdate.clean_description (some s) = .ok none ∧
    ∃ db' resp, update_task db user_id task_id td = .ok (db', resp) ∧
      resp.description = t.description ∧
      (∀ u ∈ db', u.id = t.id → u.description = t.description) := by
  constructor
  · simp only [TaskUpdate.clean_description]
    rw [if_neg (by omega)]
    rw [hs]
    simp
  · unfold update_task
    rw [h]
    rcases td with ⟨tt, dd⟩
    cases htd
    have hstore : ∀ (newt : Task), newt.id = t.id →
        newt.description = t.description →
        ∀ u ∈ db.map (fun x => if x.id == newt.id then newt else x),
          u.id = t.id → u.description = t.description := by
      intro newt hnid hnd u hu huid
      obtain ⟨x, hx, rfl⟩ := List.mem_map.mp hu
      by_cases hxid : (x.id == newt.id) = true
      · rw [if_pos hxid]
        exact hnd
      · rw [if_neg hxid] at huid ⊢
        exact absurd (huid.trans hnid.symm) (by simpa [beq_iff_eq] using hxid)
    cases tt with
    | none => exact ⟨_, _, rfl, rfl, hstore t rfl rfl⟩
    | some s' => exact ⟨_, _, rfl, rfl, hstore _ rfl rfl⟩

/-- Witness for C9: three spaces normalize to an absent description. -/
theorem update_blank_description_unchanged_witness :
    TaskUpdate.clean_description (some "   ") = .ok none :=
  (update_blank_description_unchanged "   " dbSample 1 1 ⟨none, none⟩ taskA
    (by decide) (by decide) rfl rfl).1

/-- C10: logging in to an inactive account with a wrong password fails 401
(bad credentials), not 403 — the password check precedes the active check —
and 403 arises only when the password is correct for an inactive account. -/
theorem login_inactive_wrong_password_is_401 (users : List User)
    (vp : String → String → Bool) (now : Nat) (email password : String) :
    (∀ u, users.find? (fun x => x.email == email) = some u →
      u.is_active = false → vp password u.password_hash = false →
      login_user users vp now email password =
        .error ⟨401, "Incorrect email or password"⟩) ∧
    (∀ e, login_user users vp now email password = .error e →
      e.status_code = 403 →
      ∃ u, users.find? (fun x => x.email == email) = some u ∧
        vp password u.password_hash = true ∧ u.is_active = false) := by
  constructor
  · intro u hu hin hvp
    unfold login_user
    rw [hu]
    simp [hvp, hin]
  · intro e he h403
    unfold login_user at he
    cases hu : users.find? (fun x => x.email == email) with
    | none => rw [hu] at he; injection he with he'; rw [← he'] at h403; simp at h403
    | some u =>
      rw [hu] at he
      by_cases hvp : vp password u.password_hash = false
      · simp [hvp] at he; rw [← he] at h403; simp at h403
      · by_cases hin : u.is_active = false
        · exact ⟨u, rfl, by simpa using hvp, hin⟩
        · simp [hvp, hin] at he

/-- Witness for C10: a wrong password on a concrete inactive account is
rejected 401. -/
theorem login_inactive_wrong_password_is_401_witness :
    login_user [userInactive] (fun p hsh => p == hsh) 0 "a@x.com" "wrong" =
      .error ⟨401, "Incorrect email or password"⟩ :=
  (login_inactive_wrong_password_is_401 [userInactive]
    (fun p hsh => p == hsh) 0 "a@x.com" "wrong").1 userInactive rfl rfl (by decide)

end TodoApp
